import Mathlib

/-!
# Verification of the BlueWell conversational core

Shallow embedding of the intent-resolution and schedule-matching engine of the
wellness-coaching chat backend (FastAPI application under `apps/api`), together
with proofs about the properties its design documentation states.

Conventions of the embedding:
* Python strings are Lean `String`s; `x in s` (substring test) is `strContains`,
  `str.lower()` is `pyLower`, `str.strip()` is `pyStrip` (ASCII scope, which
  covers every keyword table and message the code uses).
* Python `datetime.date` values are `Date` records; `datetime` instants that
  only ever live inside one day (workout/class start and end times built with
  `now.replace(hour=..., minute=...)`) are modelled as minutes since local
  midnight (`Nat`).  ISO-8601 serialisation of such an instant is order
  isomorphic to the minute count, so `startISO < endISO` is `startMin < endMin`.
* Python dict payloads with a fixed key vocabulary are structures of `Option`
  fields; `d.get(k)` is the `Option`, `d.get(k, v)` is `Option.getD`, and the
  truthiness-sensitive `d.get(k) or v` is `pyOrS` / `pyOrNat`.
* Fallible Python calls are `Except PyErr`; FastAPI's `HTTPException` is the
  `HttpError` error of the request handler.
-/

/-! ## Python string primitives (models of `str` operations used by the code) -/

/-- `c` is an ASCII decimal digit (the characters `re`'s `\d` matches here). -/
def isDigitCh (c : Char) : Bool := 48 ≤ c.toNat && c.toNat ≤ 57

/-- Whitespace characters recognised by `str.strip` / `re`'s `\s`
(ASCII scope: space, tab, newline, carriage return). -/
def wsCh (c : Char) : Bool := c = ' ' || c = '\t' || c = '\n' || c = '\r'

/-- `needle` occurs as a contiguous infix of `hay` (model of Python `in`). -/
def hasInfix (needle : List Char) : List Char → Bool
  | [] => needle.isEmpty
  | c :: t => needle.isPrefixOf (c :: t) || hasInfix needle t

/-- Python `needle in hay` for strings. -/
def strContains (hay needle : String) : Bool := hasInfix needle.toList hay.toList

/-- Python `any(word in message for word in words)`. -/
def containsAny (message : String) (words : List String) : Bool :=
  words.any (fun w => strContains message w)

/-- Python `message.startswith(tuple_of_prefixes)`. -/
def startsWithAny (message : String) (prefixes : List String) : Bool :=
  prefixes.any (fun p => p.toList.isPrefixOf message.toList)

/-- ASCII lower-casing of one character (model of `str.lower`). -/
def lowerCh (c : Char) : Char :=
  if 'A' ≤ c && c ≤ 'Z' then Char.ofNat (c.toNat + 32) else c

/-- Python `s.lower()` (ASCII scope). -/
def pyLower (s : String) : String := String.mk (s.toList.map lowerCh)

/-- Python `s.strip()`. -/
def pyStrip (s : String) : String :=
  String.mk (((s.toList.dropWhile wsCh).reverse.dropWhile wsCh).reverse)

/-- Python `opt or default` for an optional string (`None` and `""` are falsy). -/
def pyOrS (o : Option String) (d : String) : String :=
  match o with
  | some s => if s = "" then d else s
  | none => d

/-- Python `opt or default` for an optional number (`None` and `0` are falsy). -/
def pyOrNat (o : Option Nat) (d : Nat) : Nat :=
  match o with
  | some n => if n = 0 then d else n
  | none => d

/-! ## Calendar dates (model of `datetime.date` and the validity rules of
`datetime`'s constructor) -/

/-- A calendar date, as `datetime.date` stores it. -/
structure Date where
  year : Nat
  month : Nat
  day : Nat
deriving DecidableEq, Repr

/-- Gregorian leap-year rule used by `datetime`. -/
def isLeap (y : Nat) : Bool := (y % 4 = 0 && y % 100 ≠ 0) || y % 400 = 0

/-- Length of month `m` of year `y` (months counted 1–12). -/
def daysInMonth (y m : Nat) : Nat :=
  if m = 2 then (if isLeap y then 29 else 28)
  else if m = 4 || m = 6 || m = 9 || m = 11 then 30
  else 31

/-- The triple `(y, m, d)` is accepted by `datetime(year, month, day)`
(`MINYEAR = 1`, `MAXYEAR = 9999`). -/
def isValidDate (y m d : Nat) : Bool :=
  1 ≤ y && y ≤ 9999 && 1 ≤ m && m ≤ 12 && 1 ≤ d && d ≤ daysInMonth y m

/-- The day after `d` (model of `date + timedelta(days=1)`). -/
def nextDay (d : Date) : Date :=
  if d.day < daysInMonth d.year d.month then ⟨d.year, d.month, d.day + 1⟩
  else if d.month < 12 then ⟨d.year, d.month + 1, 1⟩
  else ⟨d.year + 1, 1, 1⟩

/-- `date + timedelta(days=n)`. -/
def addDays (d : Date) : Nat → Date
  | 0 => d
  | n + 1 => addDays (nextDay d) n

/-! ## Temporal expression parser
(embedding of `apps/api/routers/chat.py`, `_parse_specific_date`,
`_parse_time_window`, `_time_window_label`, `_determine_class_window`,
`_resolve_class_query`)

The three date regexes are embedded as explicit leftmost-match scanners with
the same greedy/backtracking behaviour as `re.search` on these patterns. -/

/-- Numeric value of a digit string (`int(...)` on the matched group). -/
def natOfDigits (ds : List Char) : Nat :=
  ds.foldl (fun a c => 10 * a + (c.toNat - 48)) 0

/-- Greedy `\d{1,2}` with nothing required after it: takes two digits when the
next two characters are digits, otherwise one.  Returns the digits and the
remaining characters. -/
def grabD12 : List Char → Option (List Char × List Char)
  | a :: b :: rest =>
    if isDigitCh a && isDigitCh b then some ([a, b], rest)
    else if isDigitCh a then some ([a], b :: rest)
    else none
  | [a] => if isDigitCh a then some ([a], []) else none
  | [] => none

/-- Greedy `\d{1,2}` followed by the literal separator `sep` (with the regex
backtracking from two digits to one when the separator check fails). -/
def grabNumSep (sep : Char) : List Char → Option (List Char × List Char)
  | [a, b] => if isDigitCh a && b = sep then some ([a], []) else none
  | a :: b :: c :: rest =>
    if isDigitCh a && isDigitCh b && c = sep then some ([a, b], rest)
    else if isDigitCh a && b = sep then some ([a], c :: rest)
    else none
  | _ => none

/-- `(20\d{2}-\d{1,2}-\d{1,2})` anchored at the current position; returns the
year, month and day digit groups. -/
def isoAt (cs : List Char) : Option (List Char × List Char × List Char) :=
  match cs with
  | c0 :: c1 :: c2 :: c3 :: c4 :: rest =>
    if c0 = '2' && c1 = '0' && isDigitCh c2 && isDigitCh c3 && c4 = '-' then
      match grabNumSep '-' rest with
      | some (ms, rest2) =>
        match grabD12 rest2 with
        | some (ds, _) => some (['2', '0', c2, c3], ms, ds)
        | none => none
      | none => none
    else none
  | _ => none

/-- `re.search` for the ISO pattern: leftmost match wins. -/
def isoSearch : List Char → Option (List Char × List Char × List Char)
  | [] => none
  | c :: t =>
    match isoAt (c :: t) with
    | some r => some r
    | none => isoSearch t

/-- The optional `(?:/\d{2,4})?` year group of the slash pattern: present only
when a `/` followed by at least two digits comes next (greedily up to four). -/
def grabYearOpt (cs : List Char) : Option (List Char) :=
  match cs with
  | c :: rest =>
    if c = '/' then
      let ds := (rest.takeWhile isDigitCh).take 4
      if 2 ≤ ds.length then some ds else none
    else none
  | [] => none

/-- `(\d{1,2}/\d{1,2}(?:/\d{2,4})?)` anchored at the current position. -/
def slashAt (cs : List Char) : Option (List Char × List Char × Option (List Char)) :=
  match grabNumSep '/' cs with
  | none => none
  | some (ms, r1) =>
    match grabD12 r1 with
    | none => none
    | some (ds, r2) => some (ms, ds, grabYearOpt r2)

/-- `re.search` for the slash pattern. -/
def slashSearch : List Char → Option (List Char × List Char × Option (List Char))
  | [] => none
  | c :: t =>
    match slashAt (c :: t) with
    | some r => some r
    | none => slashSearch t

/-- The fixed 12-entry month-name table of `_parse_specific_date`. -/
def monthNames : List (String × Nat) :=
  [("january", 1), ("february", 2), ("march", 3), ("april", 4), ("may", 5),
   ("june", 6), ("july", 7), ("august", 8), ("september", 9), ("october", 10),
   ("november", 11), ("december", 12)]

/-- The optional `(?:,\s*(\d{4}))?` year group of the month-name pattern. -/
def grabCommaYear (cs : List Char) : Option (List Char) :=
  match cs with
  | c :: rest =>
    if c = ',' then
      let r2 := rest.dropWhile wsCh
      let ds := r2.take 4
      if ds.length = 4 && ds.all isDigitCh then some ds else none
    else none
  | [] => none

/-- `(january|...|december)\s+(\d{1,2})(?:,\s*(\d{4}))?` anchored at the
current position (no two month names match at the same position, so the
alternation order is immaterial). -/
def monthAt (cs : List Char) : Option (Nat × List Char × Option (List Char)) :=
  match monthNames.findSome? (fun p =>
      if p.1.toList.isPrefixOf cs then some (p.2, cs.drop p.1.length) else none) with
  | none => none
  | some (num, r1) =>
    let ws := r1.takeWhile wsCh
    if ws.isEmpty then none
    else
      match grabD12 (r1.dropWhile wsCh) with
      | none => none
      | some (ds, r2) => some (num, ds, grabCommaYear r2)

/-- `re.search` for the month-name pattern. -/
def monthSearch : List Char → Option (Nat × List Char × Option (List Char))
  | [] => none
  | c :: t =>
    match monthAt (c :: t) with
    | some r => some r
    | none => monthSearch t

/-- `datetime.fromisoformat` applied to an ISO-pattern match `20xx-m-d`:
succeeds exactly when month and day are zero-padded to two digits and the
triple is a real calendar date. -/
def fromIsoParts (ys ms ds : List Char) : Option Date :=
  if ms.length = 2 && ds.length = 2 then
    let y := natOfDigits ys
    let m := natOfDigits ms
    let d := natOfDigits ds
    if isValidDate y m d then some ⟨y, m, d⟩ else none
  else none

/-- `_parse_specific_date`: ISO pattern, then slash pattern, then month-name
pattern; a match whose `datetime` construction fails is discarded and parsing
falls through to the next pattern. -/
def parseSpecificDate (message : String) (currentYear : Nat) : Option Date :=
  let cs := message.toList
  let iso : Option Date :=
    match isoSearch cs with
    | some (ys, ms, ds) => fromIsoParts ys ms ds
    | none => none
  match iso with
  | some d => some d
  | none =>
    let slash : Option Date :=
      match slashSearch cs with
      | some (ms, ds, ys?) =>
        let y := match ys? with
          | some yds => natOfDigits yds
          | none => currentYear
        let m := natOfDigits ms
        let d := natOfDigits ds
        if isValidDate y m d then some ⟨y, m, d⟩ else none
      | none => none
    match slash with
    | some d => some d
    | none =>
      match monthSearch cs with
      | some (m, ds, ys?) =>
        let y := match ys? with
          | some yds => natOfDigits yds
          | none => currentYear
        let d := natOfDigits ds
        if isValidDate y m d then some ⟨y, m, d⟩ else none
      | none => none

/-- `_parse_time_window`: fixed keyword table, first keyword found (in table
insertion order) wins. -/
def parseTimeWindow (message : String) : Option (Nat × Nat) :=
  if strContains message "morning" then some (5, 12)
  else if strContains message "afternoon" then some (12, 17)
  else if strContains message "evening" then some (17, 22)
  else if strContains message "night" then some (20, 24)
  else none

/-- `_time_window_label`. -/
def timeWindowLabel (w : Nat × Nat) : String :=
  if w = (5, 12) then "morning"
  else if w = (12, 17) then "afternoon"
  else if w = (17, 22) then "evening"
  else if w = (20, 24) then "night"
  else toString w.1 ++ ":00-" ++ toString w.2 ++ ":00"

/-- Result of `_determine_class_window`. -/
structure ClassWindow where
  label : String
  offsetDays : Nat
  days : Nat
deriving DecidableEq, Repr

/-- `_determine_class_window`, with `todayWeekday = today.weekday()`
(0 = Monday … 6 = Sunday).  Note the source checks `"week"` before
`"weekend"`. -/
def determineClassWindow (message : String) (todayWeekday : Nat) : ClassWindow :=
  if strContains message "tomorrow" then ⟨"tomorrow", 1, 1⟩
  else if strContains message "week" then ⟨"this week", 0, 7⟩
  else if strContains message "weekend" then
    ⟨"this weekend", (((5 : Int) - todayWeekday) % 7).toNat, 2⟩
  else ⟨"today", 0, 1⟩

/-- Result of `_resolve_class_query` (the spec's `TimeframeQuery`). -/
structure TimeframeQuery where
  label : String
  dates : List Date
  timeWindow : Option (Nat × Nat)
deriving DecidableEq, Repr

/-- `custom_date.strftime('%a %b %d')`: the pretty-printing of the date inside
the label is abstracted to its numeric fields (no claim inspects the label of
an explicit-date query). -/
def dateLabel (d : Date) : String :=
  toString d.year ++ "-" ++ toString d.month ++ "-" ++ toString d.day

/-- `_resolve_class_query`:  explicit date (single day) when one parses,
otherwise the relative window from `_determine_class_window`, expanded into
the list of dates `start_date + i, i < days`. -/
def resolveClassQuery (message : String) (today : Date) (todayWeekday currentYear : Nat) :
    TimeframeQuery :=
  let customDate := parseSpecificDate message currentYear
  let timeWindow := parseTimeWindow message
  match customDate with
  | some d =>
    let label := "on " ++ dateLabel d ++
      (match timeWindow with
       | some w => " (" ++ timeWindowLabel w ++ ")"
       | none => "")
    ⟨label, [d], timeWindow⟩
  | none =>
    let base := determineClassWindow message todayWeekday
    let startDate := addDays today base.offsetDays
    let dates := (List.range base.days).map (fun i => addDays startDate i)
    let label := match timeWindow with
      | some w => base.label ++ " (" ++ timeWindowLabel w ++ ")"
      | none => base.label
    ⟨label, dates, timeWindow⟩

/-! ## Chat data model
(`ChatRequest`/`Suggestion`/`ChatResponse` from `apps/api/routers/chat.py`,
the user-profile keys read by `apps/api/services/enhanced_llm.py`) -/

/-- The user-profile keys the conversational core reads.  A missing key is
`none`; a request without a profile is `(none : Option Profile)`. -/
structure Profile where
  name : Option String := none
  primaryGoal : Option String := none
  fitnessGoal : Option String := none
  dietPrefs : Option (List String) := none
  timePrefs : Option (List String) := none
  timeBudgetMin : Option Nat := none
deriving DecidableEq, Repr

/-- One turn of `conversation_history`. -/
structure Turn where
  role : String
  content : String
deriving DecidableEq, Repr

/-- The context extracted by `_analyze_conversation_history` (its
`last_intent` and `mentioned_items` keys are never written after
initialisation and never read, so only `topics` is carried). -/
structure Ctx where
  topics : List String
deriving DecidableEq, Repr

/-- The suggestion `payload` dict.  The key vocabulary of the core:
`startISO`/`endISO` (as minutes since local midnight, see the header),
`kcal`/`protein`, `location`, `type`, `duration`. -/
structure Payload where
  startMin : Option Nat := none
  endMin : Option Nat := none
  kcal : Option Nat := none
  protein : Option Nat := none
  location : Option String := none
  workoutType : Option String := none
  duration : Option Nat := none
deriving DecidableEq, Repr

/-- A fully-formed suggestion as the core returns it (the router's
`Suggestion` model with every field filled in). -/
structure NSuggestion where
  id : String
  kind : String
  title : String
  desc : String
  cta : String
  payload : Payload
deriving DecidableEq, Repr

/-- The router's `ChatResponse` model. -/
structure ChatResponse where
  type : String
  message : Option String
  suggestions : Option (List NSuggestion)
deriving DecidableEq, Repr

/-! ## Suggestion generators (`enhanced_llm.py`) -/

/-- The hour picked for a time-of-day preference inside
`_generate_workout_suggestions` and `_generate_daily_plan_suggestions`
(`morning` → 7, `afternoon` → 14, anything else → the `evening` default 18). -/
def prefStartHour (tp : String) : Nat :=
  if tp = "morning" then 7
  else if tp = "afternoon" then 14
  else 18

/-- Workout title and type derived from the goal keywords in
`_generate_workout_suggestions`. -/
def workoutTitleType (goal : String) : String × String :=
  let g := pyLower goal
  if strContains g "strength" || strContains g "muscle" then ("Strength Training", "strength")
  else if strContains g "cardio" || strContains g "endurance" then ("Cardio Workout", "cardio")
  else ("Full Body Workout", "mixed")

/-- The suggestion built by one iteration of the loop in
`_generate_workout_suggestions` (index `i`, preference `tp`). -/
def mkWorkoutSuggestion (goal : String) (i : Nat) (tp : String) : NSuggestion :=
  let h := prefStartHour tp
  let tt := workoutTitleType goal
  { id := "w_" ++ toString i
    kind := "workout"
    title := tt.1
    desc := "45-minute " ++ tt.2 ++ " session"
    cta := "Add to Calendar"
    payload := { startMin := some (h * 60), endMin := some (h * 60 + 45),
                 workoutType := some tt.2, duration := some 45 } }

/-- The fallback suggestion `_generate_workout_suggestions` returns for an
empty `time_prefs` list (18:00 evening default, 45 minutes). -/
def eveningDefaultWorkout : NSuggestion :=
  { id := "w1"
    kind := "workout"
    title := "Evening Workout"
    desc := "45-minute full body session"
    cta := "Add to Calendar"
    payload := { startMin := some (18 * 60), endMin := some (18 * 60 + 45) } }

/-- `_generate_workout_suggestions`: one suggestion per entry of
`time_prefs[:2]`, or the evening default when that yields nothing. -/
def generateWorkoutSuggestions (profile : Option Profile) (timePrefs : List String) :
    List NSuggestion :=
  let goal := match profile with
    | some p => p.primaryGoal.getD ""
    | none => ""
  let s := (timePrefs.take 2).mapIdx (fun i tp => mkWorkoutSuggestion goal i tp)
  if s = [] then [eveningDefaultWorkout] else s

/-- The vegetarian/vegan meal of `_generate_meal_suggestions`. -/
def quinoaBowl : NSuggestion :=
  { id := "m1", kind := "meal", title := "Quinoa Buddha Bowl",
    desc := "Roasted vegetables, tahini dressing", cta := "Log Meal",
    payload := { kcal := some 450, protein := some 18 } }

/-- The high-protein meal of `_generate_meal_suggestions`. -/
def chickenSweetPotato : NSuggestion :=
  { id := "m2", kind := "meal", title := "Grilled Chicken with Sweet Potato",
    desc := "High protein, balanced macros", cta := "Log Meal",
    payload := { kcal := some 580, protein := some 45 } }

/-- The default balanced meal of `_generate_meal_suggestions`. -/
def salmonQuinoa : NSuggestion :=
  { id := "m1", kind := "meal", title := "Salmon with Quinoa",
    desc := "Balanced nutrition", cta := "Log Meal",
    payload := { kcal := some 520, protein := some 35 } }

/-- `_generate_meal_suggestions`. -/
def generateMealSuggestions (dietPrefs : List String) (goal : String) : List NSuggestion :=
  let s :=
    (if dietPrefs.contains "Vegetarian" || dietPrefs.contains "Vegan" then [quinoaBowl] else []) ++
    (if strContains (pyLower goal) "fitness" || strContains (pyLower goal) "strength"
     then [chickenSweetPotato] else [])
  if s = [] then [salmonQuinoa] else s

/-- `_generate_class_suggestions` (a single 19:00–20:00 HIIT class). -/
def generateClassSuggestions : List NSuggestion :=
  [{ id := "c1", kind := "class", title := "HIIT Class",
     desc := "High-intensity interval training", cta := "Reserve Spot",
     payload := { startMin := some (19 * 60), endMin := some (20 * 60),
                  location := some "Fitness Center" } }]

/-- The workout entry of `_generate_daily_plan_suggestions`. -/
def planWorkout (tp : String) : NSuggestion :=
  let h := prefStartHour tp
  { id := "w1", kind := "workout", title := tp.capitalize ++ " Workout",
    desc := "45-minute session", cta := "Add to Calendar",
    payload := { startMin := some (h * 60), endMin := some (h * 60 + 45) } }

/-- `_generate_daily_plan_suggestions`: optional workout, then a meal and an
evening class. -/
def generateDailyPlanSuggestions (timePrefs : List String) : List NSuggestion :=
  (match timePrefs with
   | tp :: _ => [planWorkout tp]
   | [] => []) ++
  [{ id := "m1", kind := "meal", title := "Balanced Meal",
     desc := "High protein, nutritious", cta := "Log Meal",
     payload := { kcal := some 500, protein := some 30 } },
   { id := "c1", kind := "class", title := "Evening Fitness Class",
     desc := "Group training session", cta := "Reserve Spot",
     payload := { startMin := some (19 * 60), endMin := some (20 * 60) } }]

/-! ## Rule-based intent engine (`_understand_intent` and its handlers) -/

/-- Keyword predicate of the greeting branch. -/
def greetingCond (m : String) : Bool :=
  containsAny m ["hi", "hello", "hey", "how are you"]

/-- Keyword predicate of the workout branch. -/
def workoutCond (m : String) : Bool :=
  containsAny m ["workout", "exercise", "training", "fitness", "gym"]

/-- Keyword predicate of the meal branch. -/
def mealCond (m : String) : Bool :=
  containsAny m ["meal", "food", "eat", "dinner", "lunch", "breakfast", "hungry",
                 "what should i eat"]

/-- Keyword predicate of the class branch. -/
def classCond (m : String) : Bool :=
  containsAny m ["class", "myrec", "schedule", "reserve", "available"]

/-- Keyword predicate of the plan branch. -/
def planCond (m : String) : Bool :=
  containsAny m ["plan", "daily", "today", "schedule", "what should i do"]

/-- Keyword predicate of the progress branch. -/
def progressCond (m : String) : Bool :=
  containsAny m ["progress", "goal", "how am i doing", "stats", "summary"]

/-- Keyword predicate of the nutrition branch. -/
def nutritionCond (m : String) : Bool :=
  containsAny m ["calorie", "calories", "nutrition", "protein", "carbs", "macro"]

/-- Keyword predicate of the time branch. -/
def timeCond (m : String) : Bool :=
  containsAny m ["when", "what time", "schedule", "today", "tomorrow"]

/-- Predicate of the general-question branch
(`message.startswith(("how", "what", ...))`). -/
def generalCond (m : String) : Bool :=
  startsWithAny m ["how", "what", "why", "where", "can", "should", "do you"]

/-- `_get_personalized_greeting`. -/
def getPersonalizedGreeting (profile : Option Profile) : String :=
  match profile with
  | none => "Hi! "
  | some p =>
    let name := p.name.getD ""
    if name ≠ "" then "Hi " ++ name ++ "! "
    else
      let goal := p.primaryGoal.getD ""
      if goal ≠ "" then "Hi! I see you're working on " ++ pyLower goal ++ ". "
      else "Hi! "

/-- `_handle_workout_questions`. -/
def handleWorkoutQuestions (m : String) (profile : Option Profile) : ChatResponse :=
  let goal := match profile with
    | some p => p.primaryGoal.getD ""
    | none => ""
  let timePrefs := match profile with
    | some p => p.timePrefs.getD []
    | none => ["evening"]
  if containsAny m ["what", "suggest", "recommend", "should i do"] then
    let workoutType :=
      if strContains (pyLower goal) "strength" then "strength"
      else if strContains (pyLower goal) "cardio" then "cardio"
      else "mixed"
    let responseMsg :=
      "Based on your goal of " ++ (if goal = "" then "general fitness" else goal) ++
        ", I recommend a " ++ workoutType ++ " workout" ++
        (match timePrefs with
         | tp :: _ => " in the " ++ tp
         | [] => "") ++ "!"
    { type := "suggestions", message := some responseMsg,
      suggestions := some (generateWorkoutSuggestions profile timePrefs) }
  else if containsAny m ["when", "time", "schedule"] then
    match timePrefs with
    | bestTime :: _ =>
      { type := "message"
        message := some ("Based on your preferences, " ++ bestTime ++
          " workouts work best for you! Would you like me to suggest a specific workout for that time?")
        suggestions := some (generateWorkoutSuggestions profile [bestTime]) }
    | [] =>
      { type := "message"
        message := some "I can help you schedule workouts! What time of day works best for you?"
        suggestions := none }
  else
    { type := "suggestions", message := some "Here are some workout suggestions for you!"
      suggestions := some (generateWorkoutSuggestions profile timePrefs) }

/-- `_handle_meal_questions`. -/
def handleMealQuestions (m : String) (profile : Option Profile) : ChatResponse :=
  let dietPrefs := match profile with
    | some p => p.dietPrefs.getD []
    | none => []
  let goal := match profile with
    | some p => p.primaryGoal.getD ""
    | none => ""
  if containsAny m ["what", "suggest", "recommend", "should i eat", "hungry"] then
    let prefText := if dietPrefs = [] then "your preferences"
      else String.intercalate ", " dietPrefs
    { type := "suggestions"
      message := some ("Here are some meal ideas that match " ++ prefText ++ "!")
      suggestions := some (generateMealSuggestions dietPrefs goal) }
  else if containsAny m ["calorie", "nutrition", "healthy", "protein"] then
    { type := "message"
      message := some "I can help you find nutritious meals! Would you like high-protein options, low-calorie meals, or something balanced?"
      suggestions := some (generateMealSuggestions dietPrefs goal) }
  else
    { type := "suggestions", message := some "Here are some meal suggestions for you!"
      suggestions := some (generateMealSuggestions dietPrefs goal) }

/-- `_handle_class_questions`. -/
def handleClassQuestions (m : String) : ChatResponse :=
  if containsAny m ["find", "available", "what classes", "show me"] then
    { type := "suggestions", message := some "Here are available classes you can join!"
      suggestions := some generateClassSuggestions }
  else
    { type := "suggestions", message := some "I can help you find classes! Here are some options:"
      suggestions := some generateClassSuggestions }

/-- `_handle_plan_questions`. -/
def handlePlanQuestions (profile : Option Profile) : ChatResponse :=
  let goal := match profile with
    | some p => p.primaryGoal.getD ""
    | none => "general fitness"
  let timePrefs := match profile with
    | some p => p.timePrefs.getD []
    | none => ["morning", "evening"]
  { type := "suggestions"
    message := some ("Here's your personalized plan for today to help you reach your " ++
      goal ++ " goal!")
    suggestions := some (generateDailyPlanSuggestions timePrefs) }

/-- `_handle_nutrition_questions`. -/
def handleNutritionQuestions (profile : Option Profile) : ChatResponse :=
  let dietPrefs := match profile with
    | some p => p.dietPrefs.getD []
    | none => []
  let goal := match profile with
    | some p => p.primaryGoal.getD ""
    | none => ""
  { type := "message"
    message := some "I can help you with nutrition! You can log meals by taking photos, and I'll estimate calories and macros. Would you like meal suggestions that match your dietary preferences?"
    suggestions := some (generateMealSuggestions dietPrefs goal) }

/-- `_handle_time_questions`. -/
def handleTimeQuestions (profile : Option Profile) (ctx : Ctx) : ChatResponse :=
  let timePrefs := match profile with
    | some p => p.timePrefs.getD []
    | none => []
  let generic : ChatResponse :=
    { type := "message"
      message := some "I can help you schedule activities! What would you like to plan?"
      suggestions := none }
  if ctx.topics.contains "workout" then
    match timePrefs with
    | tp :: _ =>
      { type := "message"
        message := some ("Based on your preferences, " ++ tp ++ " is a great time for workouts!")
        suggestions := some (generateWorkoutSuggestions profile [tp]) }
    | [] => generic
  else generic

/-- `_handle_general_questions`. -/
def handleGeneralQuestions (m : String) : ChatResponse :=
  let fallback : ChatResponse :=
    { type := "message"
      message := some "I may not have data for that yet, but I can help with workouts, meals, Duke Rec classes, daily plans, progress nudges. Which area should we focus on?"
      suggestions := none }
  if containsAny m ["can you", "what can you", "how can you", "do you"] then
    { type := "message"
      message := some "I can help you with:\n• Workout recommendations based on your goals\n• Meal suggestions matching your dietary preferences\n• Finding and reserving fitness classes\n• Creating daily plans\n• Tracking your progress\n\nWhat would you like help with?"
      suggestions := none }
  else if strContains m "how" then
    if strContains m "log" || strContains m "meal" then
      { type := "message"
        message := some "To log a meal, go to the Log page and take a photo of your food. I'll automatically estimate the calories and nutrition!"
        suggestions := none }
    else if strContains m "workout" then
      { type := "message"
        message := some "You can add workouts to your calendar, and I'll track them automatically. Or ask me to suggest a workout based on your goals!"
        suggestions := none }
    else fallback
  else fallback

/-- The default help response of `_understand_intent`. -/
def defaultHelpResponse : ChatResponse :=
  { type := "message"
    message := some "I'm here to help you with workouts, meals, classes, and daily planning! You can ask me things like:\n• \"What workout should I do today?\"\n• \"Suggest a meal for dinner\"\n• \"Find me a class\"\n• \"What's my plan for today?\"\n\nWhat would you like help with?"
    suggestions := none }

/-- `_understand_intent`: the ordered keyword cascade over the lower-cased,
trimmed message. -/
def understandIntent (m : String) (profile : Option Profile) (ctx : Ctx) : ChatResponse :=
  if greetingCond m then
    { type := "message"
      message := some (getPersonalizedGreeting profile ++ "How can I help you today?")
      suggestions := none }
  else if workoutCond m then handleWorkoutQuestions m profile
  else if mealCond m then handleMealQuestions m profile
  else if classCond m then handleClassQuestions m
  else if planCond m then handlePlanQuestions profile
  else if progressCond m then
    { type := "message"
      message := some "I can help you track your progress! Check out your weekly summary to see your workouts, calories burned, and achievements. Would you like me to suggest a workout to help you reach your goals?"
      suggestions := none }
  else if nutritionCond m then handleNutritionQuestions profile
  else if timeCond m then handleTimeQuestions profile ctx
  else if generalCond m then handleGeneralQuestions m
  else defaultHelpResponse

/-- The fixed intent labels, one per branch of `_understand_intent`
(the spec's `resolve_intent` codomain). -/
inductive Intent where
  | greeting | workout | meal | fitnessClass | plan | progress | nutrition
  | time | generalQuestion | fallback
deriving DecidableEq, Repr

/-- The ordered intent list, top-to-bottom as the branches are checked. -/
def intentList : List Intent :=
  [.greeting, .workout, .meal, .fitnessClass, .plan, .progress, .nutrition,
   .time, .generalQuestion, .fallback]

/-- The branch of `_understand_intent` a message selects: the classifier
proper, as a label (same predicates, same order as `understandIntent`). -/
def intentOf (m : String) : Intent :=
  if greetingCond m then .greeting
  else if workoutCond m then .workout
  else if mealCond m then .meal
  else if classCond m then .fitnessClass
  else if planCond m then .plan
  else if progressCond m then .progress
  else if nutritionCond m then .nutrition
  else if timeCond m then .time
  else if generalCond m then .generalQuestion
  else .fallback

/-- Topic tags contributed by one history turn in
`_analyze_conversation_history`. -/
def turnTopics (content : String) : List String :=
  (if containsAny content ["workout", "exercise", "training", "fitness"] then ["workout"] else []) ++
  (if containsAny content ["meal", "food", "eat", "dinner", "lunch", "breakfast"] then ["meal"] else []) ++
  (if containsAny content ["class", "myrec", "schedule", "reserve"] then ["class"] else []) ++
  (if containsAny content ["plan", "daily", "today", "schedule"] then ["plan"] else [])

/-- `_analyze_conversation_history`: topic tags of the last five turns. -/
def analyzeConversationHistory (history : List Turn) : Ctx :=
  ⟨((history.drop (history.length - 5)).map (fun t => turnTopics (pyLower t.content))).flatten⟩

/-- `EnhancedLLMProvider.generate` when the generative collaborator is
unconfigured (`OPENAI_API_KEY` unset, so `self.client is None` and
`_call_llm` returns `None`): the message is lower-cased and trimmed, history
is analysed, and the rule-based `_understand_intent` answers. -/
def generateRuleBased (message : String) (profile : Option Profile) (history : List Turn) :
    ChatResponse :=
  understandIntent (pyStrip (pyLower message)) profile (analyzeConversationHistory history)

/-! ## Generative-payload normalization
(`_normalize_llm_payload`, `_enrich_suggestion`, `_build_workout_detail`,
`_compose_text_from_suggestions`, `_format_time_label`) -/

/-- A raw suggestion dict as the generative model may return it (any subset
of the schema's keys). -/
structure RawSuggestion where
  id : Option String := none
  kind : Option String := none
  title : Option String := none
  desc : Option String := none
  cta : Option String := none
  payload : Option Payload := none
deriving DecidableEq, Repr

/-- A raw generative payload: `type`, `message`, and `suggestions` (`none`
when the key is absent or not a list; a `none` entry is a non-dict element,
which normalization skips). -/
structure RawPayload where
  type : Option String := none
  message : Option String := none
  suggestions : Option (List (Option RawSuggestion)) := none
deriving DecidableEq, Repr

/-- `preferred_start` inside `_enrich_suggestion` (`nowMin` = minutes since
midnight of `datetime.now()`). -/
def preferredStart (up : Option Profile) (nowMin : Nat) : Nat :=
  let prefs := match up with
    | some p => p.timePrefs.getD []
    | none => []
  match prefs with
  | pref :: _ =>
    let hour := if pref = "morning" then 7
      else if pref = "afternoon" then 14
      else if pref = "evening" then 18
      else nowMin / 60
    hour * 60
  | [] => nowMin

/-- `_build_workout_detail`. -/
def buildWorkoutDetail (up : Option Profile) : String :=
  let goal := pyLower (match up with
    | some p => pyOrS p.primaryGoal (pyOrS p.fitnessGoal "fitness")
    | none => "fitness")
  let timeBudget := pyOrNat (match up with
    | some p => p.timeBudgetMin
    | none => none) 30
  let blocks := ["5-min brisk walk warm-up"] ++
    (if strContains goal "strength" || strContains goal "muscle" then
      ["3x10 bodyweight squats", "3x12 push-ups or kneeling push-ups"]
     else if strContains goal "lose" || strContains goal "fat" then
      ["10-min light jog or bike at RPE 5/10", "3x12 alternating lunges"]
     else ["3x12 glute bridges + 3x30s plank holds"]) ++
    ["5-min full-body stretch"]
  "~" ++ toString timeBudget ++ " min: " ++ String.intercalate "; " blocks

/-- `_enrich_suggestion`: backfill schedulable times, workout detail text and
meal macros.  (The source's `elif kind == "meal"` is an independent `if` here:
the preceding branch requires `kind == "workout"`, so the two conditions are
mutually exclusive and the `elif` never suppresses the meal branch.) -/
def enrichSuggestion (s : NSuggestion) (up : Option Profile) (nowMin : Nat) : NSuggestion :=
  let payload := s.payload
  let payload :=
    if (s.kind = "workout" || s.kind = "class") &&
        (payload.startMin = none || payload.endMin = none) then
      let start := preferredStart up nowMin
      let duration := if s.kind = "workout" then 45 else 60
      { payload with startMin := some (payload.startMin.getD start),
                     endMin := some (payload.endMin.getD (start + duration)) }
    else payload
  let desc := if s.kind = "workout" && s.desc = "" then buildWorkoutDetail up else s.desc
  let payload := if s.kind = "meal" then
      { payload with kcal := some (payload.kcal.getD 500),
                     protein := some (payload.protein.getD 30) }
    else payload
  { s with desc := desc, payload := payload }

/-- The per-entry normalization of `_normalize_llm_payload` (index `idx` from
`enumerate(..., start=1)`): coerce the kind into the allowed set, backfill
`id`/`title`/`desc`/`cta`/`payload`, then enrich. -/
def normalizeSuggestion (up : Option Profile) (nowMin : Nat) (idx : Nat)
    (rs : RawSuggestion) : NSuggestion :=
  let kind0 := rs.kind.getD "workout"
  let kind := if kind0 = "workout" || kind0 = "meal" || kind0 = "class" then kind0
    else "workout"
  enrichSuggestion
    { id := pyOrS rs.id ("s" ++ toString idx)
      kind := kind
      title := pyOrS rs.title "Try This"
      desc := pyOrS rs.desc ""
      cta := pyOrS rs.cta "Learn More"
      payload := rs.payload.getD {} } up nowMin

/-- The loop of `_normalize_llm_payload` over `raw_suggestions`: non-dict
entries are skipped but still counted by `enumerate`. -/
def normList (up : Option Profile) (nowMin : Nat) :
    Nat → List (Option RawSuggestion) → List NSuggestion
  | _, [] => []
  | idx, none :: rest => normList up nowMin (idx + 1) rest
  | idx, some rs :: rest => normalizeSuggestion up nowMin idx rs :: normList up nowMin (idx + 1) rest

/-- The normalized suggestion list a raw payload yields. -/
def normSuggestions (raw : RawPayload) (up : Option Profile) (nowMin : Nat) :
    List NSuggestion :=
  match raw.suggestions with
  | some items => normList up nowMin 1 items
  | none => []

/-- `_format_time_label`: `none` (no `startISO`, or an unparseable one, which
the minute model folds into `none`) gives the fallback; the strftime
pretty-printing of a valid instant is abstracted to its minute count. -/
def formatTimeLabel (o : Option Nat) : String :=
  match o with
  | some n => "day " ++ toString (n / 60) ++ ":" ++ toString (n % 60)
  | none => "any time today"

/-- `_compose_text_from_suggestions`. -/
def composeTextFromSuggestions (intro : String) (suggestions : List NSuggestion) : String :=
  let lines :=
    (if pyStrip intro = "" then [] else [pyStrip intro]) ++
    suggestions.map (fun s =>
      let startLabel := formatTimeLabel s.payload.startMin
      let detailParts :=
        (if startLabel = "any time today" then [] else [startLabel]) ++
        (match s.payload.location with
         | some l => if l = "" then [] else [l]
         | none => [])
      let detail := String.intercalate " • " detailParts
      "- " ++ s.title ++
        (if detail = "" then "" else " (" ++ detail ++ ")") ++
        (if s.desc = "" then "" else ": " ++ s.desc)) ++
    ["Need tweaks or a different option? Just let me know."]
  String.intercalate "\n" lines

/-- `_normalize_llm_payload`: coerce a suggestions-type with no suggestions to
a message, and collapse any produced suggestions into a single composed text
message with no structured list. -/
def normalizeLlmPayload (raw : RawPayload) (up : Option Profile) (nowMin : Nat) :
    ChatResponse :=
  let chatType := raw.type.getD "message"
  let message := pyOrS raw.message "I'm here to help keep you on track today."
  let suggestions := normSuggestions raw up nowMin
  let chatType := if chatType = "suggestions" && suggestions = [] then "message" else chatType
  if suggestions = [] then
    { type := chatType, message := some message, suggestions := none }
  else
    { type := "message"
      message := some (composeTextFromSuggestions message suggestions)
      suggestions := none }

/-! ## Chat router: class fetching and the request handler
(`apps/api/routers/chat.py` `chat`, `_fetch_duke_rec_classes_if_requested`,
`_build_class_response`; the call contract of
`apps/api/services/myrec_provider.py` `MyRecProvider.search`) -/

/-- A class entry as the provider returns it (`start`/`end` ISO datetimes are
carried as minutes since midnight of their day, `none` for a missing or
unparseable value, matching the builder's `try: fromisoformat except: None`). -/
structure ClassItem where
  id : Option String := none
  title : Option String := none
  startMin : Option Nat := none
  endMin : Option Nat := none
  location : Option String := none
  spotsOpen : Option Nat := none
deriving DecidableEq, Repr

/-- The payload `_fetch_duke_rec_classes_if_requested` hands to
`_build_class_response`. -/
structure ClassesPayload where
  timeframe : String
  items : List ClassItem
deriving DecidableEq, Repr

/-- The `desc` label of one class suggestion (`strftime` pretty-printing of
the date and time abstracted to the minute count; no claim inspects it). -/
def classDescLabel (st en : Option Nat) (location : String) : String :=
  let dateLabel := match st with
    | some _ => "(date)"
    | none => "Date TBA"
  let timeLabel := match st with
    | some n => toString (n / 60) ++ ":" ++ toString (n % 60)
    | none => "Time TBA"
  let timeLabel := match en with
    | some n => timeLabel ++ " – " ++ toString (n / 60) ++ ":" ++ toString (n % 60)
    | none => timeLabel
  dateLabel ++ " • " ++ timeLabel ++ " at " ++ location

/-- The class suggestion `_build_class_response` builds for one fetched item
(index `idx` from `enumerate`). -/
def classSuggestionOf (idx : Nat) (cls : ClassItem) : NSuggestion :=
  let location := cls.location.getD "Duke Rec"
  { id := cls.id.getD ("cls_" ++ toString idx)
    kind := "class"
    title := cls.title.getD "Class"
    desc := classDescLabel cls.startMin cls.endMin location
    cta := "Add to Calendar"
    payload := { startMin := cls.startMin, endMin := cls.endMin,
                 location := some location } }

/-- `_build_class_response`: one suggestion per entry of `items[:4]`. -/
def buildClassResponse (pl : ClassesPayload) : ChatResponse :=
  let suggestions := (pl.items.take 4).mapIdx classSuggestionOf
  let message :=
    if suggestions = [] then
      "I couldn't find Duke Rec classes for that timeframe. Try asking with a format like 'classes on 2025-11-10 morning'."
    else
      "Here are Duke Rec classes available " ++ pl.timeframe ++
        ". Need a different date or time window? Ask something like 'classes on 2025-11-10 evening'."
  { type := "suggestions", message := some message
    suggestions := if suggestions = [] then none else some suggestions }

/-- Decidable equality for `Except` results (for evaluating the handler on
concrete inputs). -/
instance exceptDecEq {e a : Type} [DecidableEq e] [DecidableEq a] : DecidableEq (Except e a) :=
  fun x y =>
    match x, y with
    | .error u, .error v =>
      if h : u = v then isTrue (by rw [h]) else isFalse (by intro hh; cases hh; exact h rfl)
    | .ok u, .ok v =>
      if h : u = v then isTrue (by rw [h]) else isFalse (by intro hh; cases hh; exact h rfl)
    | .error _, .ok _ => isFalse (by intro h; cases h)
    | .ok _, .error _ => isFalse (by intro h; cases h)

/-- A Python-level failure inside the handler's `try` block. -/
inductive PyErr where
  /-- `TypeError: search() got an unexpected keyword argument`. -/
  | typeError
deriving DecidableEq, Repr

/-- The `HTTPException` the handler raises from a caught failure. -/
structure HttpError where
  status : Nat
deriving DecidableEq, Repr

/-- The parameter names `MyRecProvider.search` accepts
(`myrec_provider.py`, line 17: `search(self, date=None, location=None,
class_type=None)`). -/
def searchParamNames : List String := ["date", "location", "class_type"]

/-- A Python keyword-argument call of `MyRecProvider.search`: a keyword that
is not a declared parameter raises `TypeError` before the body runs.  `impl`
abstracts the body (a network/mock collaborator consulted per date). -/
def callSearch (impl : Date → List ClassItem) (kwargNames : List String) (d : Date) :
    Except PyErr (List ClassItem) :=
  if kwargNames.all (fun k => searchParamNames.contains k) then .ok (impl d)
  else .error .typeError

/-- The keyword names at the call site `provider.search(date=iso_date,
time_window=timeframe.get("time_window"))` (`chat.py`, line 74). -/
def fetchCallKwargs : List String := ["date", "time_window"]

/-- The per-date fetch loop of `_fetch_duke_rec_classes_if_requested`
(`items.extend(day_classes)` over `timeframe["dates"]`); an exception aborts
the loop. -/
def collectClasses (impl : Date → List ClassItem) : List Date → Except PyErr (List ClassItem)
  | [] => .ok []
  | d :: rest =>
    match callSearch impl fetchCallKwargs d with
    | .error e => .error e
    | .ok items =>
      match collectClasses impl rest with
      | .error e => .error e
      | .ok more => .ok (items ++ more)

/-- `_fetch_duke_rec_classes_if_requested`.  `shuffle` abstracts
`random.shuffle` (an arbitrary reordering chosen by the runtime). -/
def fetchDukeRecClassesIfRequested (impl : Date → List ClassItem)
    (shuffle : List ClassItem → List ClassItem) (message : String)
    (today : Date) (todayWeekday currentYear : Nat) :
    Except PyErr (Option ClassesPayload) :=
  let lowered := pyLower message
  if containsAny lowered ["class", "myrec", "duke rec"] then
    let timeframe := resolveClassQuery lowered today todayWeekday currentYear
    match collectClasses impl timeframe.dates with
    | .error e => .error e
    | .ok items =>
      if items = [] then .ok none
      else .ok (some { timeframe := timeframe.label, items := (shuffle items).take 20 })
  else .ok none

/-- The request handler `chat` with the generative collaborator unconfigured:
a fetched class payload short-circuits into `_build_class_response`;
otherwise the rule-based `generate` runs (the second fetch inside
`_maybe_attach_duke_rec_classes` returns the identical `None`, leaving the
context unchanged, whenever the first returned `None`).  Any exception is
re-raised as `HTTPException(status_code=500)`. -/
def chatHandler (impl : Date → List ClassItem) (shuffle : List ClassItem → List ClassItem)
    (message : String) (profile : Option Profile) (history : List Turn)
    (today : Date) (todayWeekday currentYear : Nat) :
    Except HttpError ChatResponse :=
  match fetchDukeRecClassesIfRequested impl shuffle message today todayWeekday currentYear with
  | .error _ => .error ⟨500⟩
  | .ok (some pl) => .ok (buildClassResponse pl)
  | .ok none => .ok (generateRuleBased message profile history)

/-! ## Schedule matcher (spec §4.2) -/

/-- One schedule record as the spec's Schedule Matcher consumes it. -/
structure ClassRecord where
  date : Date
  title : String
  location : String
  startHour : Nat
  endHour : Nat
  spotsOpen : Nat
deriving DecidableEq, Repr

/-- Modelled from the spec: the Schedule Matcher's filtering step.  The chat
router invokes class search with a `time_window` filter (`chat.py`, line 74),
but the filtering implementation itself is not among the provided sources —
`MyRecProvider.search` only forwards its parameters to the remote Duke
Recreation API.  Per spec §4.2: the filter set is a conjunction of the
supplied predicates (date equality, case-insensitive location substring,
case-insensitive class-type substring against the title, and a time window
tested against the record's start hour in the half-open interval
`[start, end)`), keeping the cache order. -/
def schedulePredicate (dateF : Option Date) (locationF classTypeF : Option String)
    (timeWindow : Option (Nat × Nat)) (r : ClassRecord) : Bool :=
  (match dateF with
   | none => true
   | some d => r.date = d) &&
  (match locationF with
   | none => true
   | some l => strContains (pyLower r.location) (pyLower l)) &&
  (match classTypeF with
   | none => true
   | some t => strContains (pyLower r.title) (pyLower t)) &&
  (match timeWindow with
   | none => true
   | some w => decide (w.1 ≤ r.startHour) && decide (r.startHour < w.2))

/-- Modelled from the spec (continued): the matcher keeps, in cache order,
exactly the records passing `schedulePredicate`. -/
def scheduleMatch (records : List ClassRecord) (dateF : Option Date)
    (locationF classTypeF : Option String) (timeWindow : Option (Nat × Nat)) :
    List ClassRecord :=
  records.filter (schedulePredicate dateF locationF classTypeF timeWindow)

/-! ## Helper lemmas -/

/-- A keyword list test succeeds when any single listed keyword occurs. -/
theorem containsAny_of_mem {m w : String} {ws : List String} (hmem : w ∈ ws)
    (h : strContains m w = true) : containsAny m ws = true := by
  unfold containsAny
  rw [List.any_eq_true]
  exact ⟨w, hmem, h⟩

/-- Every branch of `_determine_class_window` asks for at least one day. -/
theorem determineClassWindow_days_pos (m : String) (w : Nat) :
    (determineClassWindow m w).days ≠ 0 := by
  unfold determineClassWindow
  split_ifs <;> simp

/-- `_resolve_class_query` never returns an empty date list. -/
theorem resolve_dates_ne_nil (m : String) (t : Date) (w cy : Nat) :
    (resolveClassQuery m t w cy).dates ≠ [] := by
  unfold resolveClassQuery
  cases hc : parseSpecificDate m cy with
  | some d => simp
  | none =>
    simp only []
    intro hnil
    rw [List.map_eq_nil_iff, List.range_eq_nil] at hnil
    exact determineClassWindow_days_pos m w hnil

/-- The fetch loop raises `TypeError` on its first iteration: the call passes
the keyword `time_window`, which `MyRecProvider.search` does not declare. -/
theorem collectClasses_error (impl : Date → List ClassItem) (dates : List Date)
    (h : dates ≠ []) : collectClasses impl dates = .error .typeError := by
  cases dates with
  | nil => exact absurd rfl h
  | cons d rest =>
    have hkw : fetchCallKwargs.all (fun k => searchParamNames.contains k) = false := by decide
    unfold collectClasses callSearch
    rw [hkw]
    simp

/-! ## Claims -/

/-- C1.  The claim states that with the generative collaborator unconfigured
every inbound message — in particular every message containing a class
keyword — yields a well-formed `ChatResponse` and no unstructured failure.
The code violates it: for every message containing `"class"`, `"myrec"` or
`"duke rec"` (after lower-casing), the call
`provider.search(date=..., time_window=...)` in
`_fetch_duke_rec_classes_if_requested` raises `TypeError` (the provider's
`search` declares no `time_window` parameter), and the handler converts it
into an `HTTPException` with status 500 — for every collaborator behaviour
`impl`, every shuffle, every profile, history and date. -/
theorem chat_class_keyword_http500 (impl : Date → List ClassItem)
    (shuffle : List ClassItem → List ClassItem) (message : String)
    (profile : Option Profile) (history : List Turn) (today : Date)
    (todayWeekday currentYear : Nat)
    (h : containsAny (pyLower message) ["class", "myrec", "duke rec"] = true) :
    chatHandler impl shuffle message profile history today todayWeekday currentYear
      = .error ⟨500⟩ := by
  unfold chatHandler fetchDukeRecClassesIfRequested
  simp only [h, if_true]
  rw [collectClasses_error impl _
    (resolve_dates_ne_nil (pyLower message) today todayWeekday currentYear)]

/-- C1, witness: the concrete message `"Any yoga classes today?"` hits the
failure. -/
theorem chat_class_keyword_http500_witness :
    containsAny (pyLower "Any yoga classes today?") ["class", "myrec", "duke rec"] = true ∧
    chatHandler (fun _ => []) id "Any yoga classes today?" none [] ⟨2025, 10, 12⟩ 6 2025
      = .error ⟨500⟩ :=
  ⟨by decide,
   chat_class_keyword_http500 (fun _ => []) id "Any yoga classes today?" none []
     ⟨2025, 10, 12⟩ 6 2025 (by decide)⟩

/-- C2.  The claim states that a message containing `"weekend"` (and no
explicit date) resolves to two dates starting at the next Saturday.  The code
violates it: `_determine_class_window` tests `"week"` before `"weekend"`, and
`"weekend"` contains `"week"` as a substring, so the weekend branch is
unreachable.  Evaluated at the failing input `"any classes this weekend?"`
with today = Sunday 2025-10-12 (weekday 6): the code returns the label
`"this week"` and seven consecutive dates starting today, not the two dates
2025-10-18 (next Saturday) and 2025-10-19 the claim requires. -/
theorem weekend_resolves_to_week_window :
    determineClassWindow "any classes this weekend?" 6 = ⟨"this week", 0, 7⟩ ∧
    (resolveClassQuery "any classes this weekend?" ⟨2025, 10, 12⟩ 6 2025).label
      = "this week" ∧
    (resolveClassQuery "any classes this weekend?" ⟨2025, 10, 12⟩ 6 2025).dates
      = [⟨2025, 10, 12⟩, ⟨2025, 10, 13⟩, ⟨2025, 10, 14⟩, ⟨2025, 10, 15⟩,
         ⟨2025, 10, 16⟩, ⟨2025, 10, 17⟩, ⟨2025, 10, 18⟩] ∧
    (resolveClassQuery "any classes this weekend?" ⟨2025, 10, 12⟩ 6 2025).dates
      ≠ [⟨2025, 10, 18⟩, ⟨2025, 10, 19⟩] := by
  decide

/-- C3, counterexample.  The claim says a message containing both `"meal"`
and `"workout"` always classifies as workout; but the greeting branch is
checked first and matches by raw substring, and `"this"` contains `"hi"`:
the message `"this meal workout"` classifies as greeting. -/
theorem intent_meal_workout_greeting_cx :
    strContains "this meal workout" "meal" = true ∧
    strContains "this meal workout" "workout" = true ∧
    intentOf "this meal workout" = Intent.greeting ∧
    intentOf "this meal workout" ≠ Intent.workout := by
  decide

/-- C3, amended.  The rule-based classifier returns exactly one intent from
the fixed ordered list (a deterministic total function of the message; the
context tags play no part in branch selection), and a message containing both
`"meal"` and `"workout"` classifies as workout provided no greeting keyword
(`"hi"`, `"hello"`, `"hey"`, `"how are you"`) occurs as a substring. -/
theorem intent_classifier_total_ordered (m : String) :
    intentOf m ∈ intentList ∧
    (greetingCond m = false → strContains m "meal" = true →
      strContains m "workout" = true → intentOf m = Intent.workout) := by
  constructor
  · unfold intentOf intentList
    split_ifs <;> simp
  · intro h1 _h2 h3
    have hw : workoutCond m = true := containsAny_of_mem (by simp) h3
    unfold intentOf
    simp [h1, hw]

/-- C3, witness: `"meal and workout"` has no greeting substring and
classifies as workout. -/
theorem intent_classifier_total_ordered_witness :
    greetingCond "meal and workout" = false ∧
    strContains "meal and workout" "meal" = true ∧
    strContains "meal and workout" "workout" = true ∧
    intentOf "meal and workout" = Intent.workout :=
  ⟨by decide, by decide, by decide,
   (intent_classifier_total_ordered "meal and workout").2 (by decide) (by decide) (by decide)⟩

/-! ### C4: the explicit-date parser -/

/-- The decimal digit character of `k` (for building test messages). -/
def dc : Nat → Char
  | 0 => '0'
  | 1 => '1'
  | 2 => '2'
  | 3 => '3'
  | 4 => '4'
  | 5 => '5'
  | 6 => '6'
  | 7 => '7'
  | 8 => '8'
  | 9 => '9'
  | _ => '0'

/-- The message consisting of the date `y-m-d` written zero-padded as
`YYYY-MM-DD` (for `2000 ≤ y ≤ 2099`). -/
def padIso (y m d : Nat) : String :=
  String.mk ['2', '0', dc (y / 10 % 10), dc (y % 10), '-', dc (m / 10), dc (m % 10), '-',
             dc (d / 10), dc (d % 10)]

theorem dc_isDigit (k : Nat) (h : k < 10) : isDigitCh (dc k) = true := by
  interval_cases k <;> decide

theorem dc_toNat (k : Nat) (h : k < 10) : (dc k).toNat = 48 + k := by
  interval_cases k <;> decide

theorem daysInMonth_le (y m : Nat) : daysInMonth y m ≤ 31 := by
  unfold daysInMonth
  split_ifs <;> omega

/-- The zero-padded ISO round trip: `_parse_specific_date` on the message
`YYYY-MM-DD` returns exactly that date. -/
theorem padIso_parses (y m d cy : Nat) (hy1 : 2000 ≤ y) (hy2 : y ≤ 2099)
    (hv : isValidDate y m d = true) :
    parseSpecificDate (padIso y m d) cy = some ⟨y, m, d⟩ := by
  have hvx := hv
  simp only [isValidDate, Bool.and_eq_true, decide_eq_true_eq] at hvx
  have hd31 : d ≤ 31 := le_trans hvx.2 (daysInMonth_le y m)
  have hm12 : m ≤ 12 := hvx.1.1.2
  have ha : isDigitCh (dc (y / 10 % 10)) = true := dc_isDigit _ (by omega)
  have hb : isDigitCh (dc (y % 10)) = true := dc_isDigit _ (by omega)
  have hm1 : isDigitCh (dc (m / 10)) = true := dc_isDigit _ (by omega)
  have hm2 : isDigitCh (dc (m % 10)) = true := dc_isDigit _ (by omega)
  have hd1 : isDigitCh (dc (d / 10)) = true := dc_isDigit _ (by omega)
  have hd2 : isDigitCh (dc (d % 10)) = true := dc_isDigit _ (by omega)
  have hlist : (padIso y m d).toList =
      ['2', '0', dc (y / 10 % 10), dc (y % 10), '-', dc (m / 10), dc (m % 10), '-',
       dc (d / 10), dc (d % 10)] := rfl
  have hiso : isoSearch (padIso y m d).toList =
      some (['2', '0', dc (y / 10 % 10), dc (y % 10)],
            [dc (m / 10), dc (m % 10)], [dc (d / 10), dc (d % 10)]) := by
    rw [hlist]
    simp [isoSearch, isoAt, grabNumSep, grabD12, ha, hb, hm1, hm2, hd1, hd2]
  have c2n : ('2' : Char).toNat = 50 := rfl
  have c0n : ('0' : Char).toNat = 48 := rfl
  have hys : natOfDigits ['2', '0', dc (y / 10 % 10), dc (y % 10)] = y := by
    simp [natOfDigits, c2n, c0n, dc_toNat (y / 10 % 10) (by omega), dc_toNat (y % 10) (by omega)]
    omega
  have hms : natOfDigits [dc (m / 10), dc (m % 10)] = m := by
    simp [natOfDigits, dc_toNat (m / 10) (by omega), dc_toNat (m % 10) (by omega)]
    omega
  have hds : natOfDigits [dc (d / 10), dc (d % 10)] = d := by
    simp [natOfDigits, dc_toNat (d / 10) (by omega), dc_toNat (d % 10) (by omega)]
    omega
  have hfrom : fromIsoParts ['2', '0', dc (y / 10 % 10), dc (y % 10)]
      [dc (m / 10), dc (m % 10)] [dc (d / 10), dc (d % 10)] = some ⟨y, m, d⟩ := by
    unfold fromIsoParts
    rw [hys, hms, hds]
    simp [hv]
  unfold parseSpecificDate
  simp only [hiso, hfrom]

/-- C4, counterexample.  The claim says every `YYYY-M-D` date with valid
month and day round-trips; but `datetime.fromisoformat` rejects the matched
text `2025-3-5` (month and day not zero-padded), the other patterns find
nothing, and no explicit date is returned. -/
theorem parse_single_digit_date_cx :
    isValidDate 2025 3 5 = true ∧
    parseSpecificDate "2025-3-5" 2025 = none ∧
    parseSpecificDate "2025-3-5" 2025 ≠ some ⟨2025, 3, 5⟩ := by
  decide

/-- C4, amended.  For every date written zero-padded as `YYYY-MM-DD`
(year 2000–2099) with valid month and day, the parser returns exactly that
calendar date; a matched ISO pattern that `datetime.fromisoformat` rejects
(invalid month/day such as `2025-13-01`, or single-digit fields such as
`2025-3-5`) is discarded and parsing proceeds to the next pattern (the slash
date `3/4` is then found); when every pattern fails, no explicit date is
returned. -/
theorem parse_specific_date_amended (y m d cy : Nat) (hy1 : 2000 ≤ y) (hy2 : y ≤ 2099)
    (hv : isValidDate y m d = true) :
    parseSpecificDate (padIso y m d) cy = some ⟨y, m, d⟩ ∧
    parseSpecificDate "2025-13-01" 2025 = none ∧
    parseSpecificDate "2025-13-01 or 3/4" 2025 = some ⟨2025, 3, 4⟩ :=
  ⟨padIso_parses y m d cy hy1 hy2 hv, by decide, by decide⟩

/-- C4, witness: the date 2025-11-10. -/
theorem parse_specific_date_amended_witness :
    (2000 ≤ 2025 ∧ 2025 ≤ 2099 ∧ isValidDate 2025 11 10 = true) ∧
    parseSpecificDate (padIso 2025 11 10) 2024 = some ⟨2025, 11, 10⟩ :=
  ⟨⟨by omega, by omega, by decide⟩,
   (parse_specific_date_amended 2025 11 10 2024 (by omega) (by omega) (by decide)).1⟩

/-- The Boolean filter predicate agrees with the conjunction of the supplied
filter conditions. -/
theorem schedulePredicate_iff (dateF : Option Date) (locationF classTypeF : Option String)
    (tw : Option (Nat × Nat)) (r : ClassRecord) :
    schedulePredicate dateF locationF classTypeF tw r = true ↔
      ((∀ d, dateF = some d → r.date = d) ∧
       (∀ l, locationF = some l → strContains (pyLower r.location) (pyLower l) = true) ∧
       (∀ t, classTypeF = some t → strContains (pyLower r.title) (pyLower t) = true) ∧
       (∀ s e, tw = some (s, e) → s ≤ r.startHour ∧ r.startHour < e)) := by
  rcases dateF with _ | d <;> rcases locationF with _ | l <;>
    rcases classTypeF with _ | t <;> rcases tw with _ | ⟨s, e⟩ <;>
      simp [schedulePredicate, and_assoc]

/-- C5.  Schedule matching (spec-modelled, see `scheduleMatch`) returns
exactly the records satisfying the conjunction of all supplied filters, and
the time-window filter reads only the record's start hour (membership in the
half-open interval `[start, end)`): replacing every record's end hour by an
arbitrary function of the record commutes with the filter. -/
theorem schedule_match_spec (records : List ClassRecord) (dateF : Option Date)
    (locationF classTypeF : Option String) (tw : Option (Nat × Nat)) (r : ClassRecord)
    (f : ClassRecord → Nat) :
    (r ∈ scheduleMatch records dateF locationF classTypeF tw ↔
      r ∈ records ∧
      (∀ d, dateF = some d → r.date = d) ∧
      (∀ l, locationF = some l → strContains (pyLower r.location) (pyLower l) = true) ∧
      (∀ t, classTypeF = some t → strContains (pyLower r.title) (pyLower t) = true) ∧
      (∀ s e, tw = some (s, e) → s ≤ r.startHour ∧ r.startHour < e)) ∧
    (scheduleMatch (records.map (fun x => { x with endHour := f x })) dateF locationF
        classTypeF tw
      = (scheduleMatch records dateF locationF classTypeF tw).map
          (fun x => { x with endHour := f x })) := by
  constructor
  · rw [scheduleMatch, List.mem_filter, schedulePredicate_iff]
  · unfold scheduleMatch
    rw [List.filter_map]
    rfl

/-- C5, witness: a 21:00 class passes the evening window `[17, 22)` even
though its end hour lies outside it. -/
theorem schedule_match_spec_witness :
    ({ date := ⟨2025, 10, 12⟩, title := "Yoga Flow", location := "Wilson Recreation Center",
       startHour := 21, endHour := 23, spotsOpen := 5 } : ClassRecord)
      ∈ scheduleMatch
        [{ date := ⟨2025, 10, 12⟩, title := "Yoga Flow",
           location := "Wilson Recreation Center", startHour := 21, endHour := 23,
           spotsOpen := 5 }] none none none (some (17, 22)) :=
  ((schedule_match_spec _ none none none (some (17, 22)) _ (fun _ => 0)).1).mpr
    ⟨by simp,
     by intro d hd; simp at hd,
     by intro l hl; simp at hl,
     by intro t ht; simp at ht,
     by
      rintro s e h
      simp only [Option.some.injEq, Prod.mk.injEq] at h
      obtain ⟨hs, he⟩ := h
      subst hs
      subst he
      decide⟩

/-- C6.  `_generate_workout_suggestions` returns between one and two
suggestions; every suggestion starts strictly before it ends and lasts
exactly 45 minutes; suggestion `i` starts at the hour mapped from
`time_prefs[i]` (morning = 7:00, afternoon = 14:00, evening/default = 18:00);
and an empty preference list yields exactly the single evening default. -/
theorem workout_suggestions_spec (profile : Option Profile) (prefs : List String) :
    (1 ≤ (generateWorkoutSuggestions profile prefs).length ∧
      (generateWorkoutSuggestions profile prefs).length ≤ 2) ∧
    (∀ x ∈ generateWorkoutSuggestions profile prefs,
      ∃ st, x.payload.startMin = some st ∧ x.payload.endMin = some (st + 45) ∧
        st < st + 45) ∧
    (∀ i, (h1 : i < (generateWorkoutSuggestions profile prefs).length) →
      (h2 : i < (prefs.take 2).length) →
      ((generateWorkoutSuggestions profile prefs).get ⟨i, h1⟩).payload.startMin
        = some (prefStartHour ((prefs.take 2).get ⟨i, h2⟩) * 60)) ∧
    (prefStartHour "morning" = 7 ∧ prefStartHour "afternoon" = 14 ∧
      prefStartHour "evening" = 18) ∧
    (prefs = [] → generateWorkoutSuggestions profile prefs = [eveningDefaultWorkout]) := by
  match prefs with
  | [] =>
    refine ⟨by simp [generateWorkoutSuggestions], ?_, ?_, by decide,
      fun _ => by simp [generateWorkoutSuggestions]⟩
    · intro x hx
      simp [generateWorkoutSuggestions] at hx
      subst hx
      exact ⟨18 * 60, rfl, rfl, by omega⟩
    · intro i h1 h2
      simp at h2
  | [a] =>
    refine ⟨by simp [generateWorkoutSuggestions], ?_, ?_, by decide, fun h => by simp at h⟩
    · intro x hx
      simp [generateWorkoutSuggestions] at hx
      subst hx
      exact ⟨prefStartHour a * 60, rfl, rfl, by omega⟩
    · intro i h1 h2
      cases i with
      | zero => rfl
      | succ n =>
        simp [generateWorkoutSuggestions] at h1
  | a :: b :: t =>
    refine ⟨by simp [generateWorkoutSuggestions], ?_, ?_, by decide, fun h => by simp at h⟩
    · intro x hx
      simp [generateWorkoutSuggestions] at hx
      rcases hx with hx | hx <;> subst hx
      · exact ⟨prefStartHour a * 60, rfl, rfl, by omega⟩
      · exact ⟨prefStartHour b * 60, rfl, rfl, by omega⟩
    · intro i h1 h2
      cases i with
      | zero => rfl
      | succ n =>
        cases n with
        | zero => rfl
        | succ k => simp [generateWorkoutSuggestions] at h1; omega

/-- C6, witness: a single `"morning"` preference yields a 07:00 start with a
45-minute duration. -/
theorem workout_suggestions_spec_witness :
    ∃ st, (mkWorkoutSuggestion "" 0 "morning").payload.startMin = some st ∧
      (mkWorkoutSuggestion "" 0 "morning").payload.endMin = some (st + 45) ∧ st < st + 45 :=
  (workout_suggestions_spec none ["morning"]).2.1 (mkWorkoutSuggestion "" 0 "morning")
    (by decide)

/-! ### C7: the suggestions-type invariant -/

/-- The spec's response invariant: a `suggestions`-typed response carries a
non-empty suggestion list. -/
def respInvariant (r : ChatResponse) : Prop :=
  r.type = "suggestions" → ∃ l, r.suggestions = some l ∧ l ≠ []

theorem generateWorkoutSuggestions_ne_nil (p : Option Profile) (tps : List String) :
    generateWorkoutSuggestions p tps ≠ [] := by
  cases tps with
  | nil => simp [generateWorkoutSuggestions]
  | cons a t =>
    cases t with
    | nil => simp [generateWorkoutSuggestions]
    | cons b t2 => simp [generateWorkoutSuggestions]

theorem generateMealSuggestions_ne_nil (dp : List String) (goal : String) :
    generateMealSuggestions dp goal ≠ [] := by
  unfold generateMealSuggestions
  split_ifs <;> simp

theorem generateDailyPlanSuggestions_ne_nil (tps : List String) :
    generateDailyPlanSuggestions tps ≠ [] := by
  cases tps <;> simp [generateDailyPlanSuggestions]

theorem respInvariant_handleWorkout (m : String) (p : Option Profile) :
    respInvariant (handleWorkoutQuestions m p) := by
  unfold respInvariant
  simp only [handleWorkoutQuestions]
  rcases p with _ | ⟨name, goal, fgoal, diet, tps, tb⟩
  case none =>
    split_ifs <;> exact fun _ => ⟨_, rfl, generateWorkoutSuggestions_ne_nil _ _⟩
  case some =>
    rcases tps with _ | (_ | ⟨tp, rest⟩) <;>
      split_ifs <;>
        first
          | exact fun _ => ⟨_, rfl, generateWorkoutSuggestions_ne_nil _ _⟩
          | exact fun h => by simp at h

theorem respInvariant_handleMeal (m : String) (p : Option Profile) :
    respInvariant (handleMealQuestions m p) := by
  unfold respInvariant
  simp only [handleMealQuestions]
  split_ifs <;> exact fun _ => ⟨_, rfl, generateMealSuggestions_ne_nil _ _⟩

theorem respInvariant_handleClass (m : String) :
    respInvariant (handleClassQuestions m) := by
  unfold respInvariant
  simp only [handleClassQuestions]
  split_ifs <;> exact fun _ => ⟨_, rfl, by simp [generateClassSuggestions]⟩

theorem respInvariant_handlePlan (p : Option Profile) :
    respInvariant (handlePlanQuestions p) := by
  unfold respInvariant
  simp only [handlePlanQuestions]
  exact fun _ => ⟨_, rfl, generateDailyPlanSuggestions_ne_nil _⟩

theorem respInvariant_handleNutrition (p : Option Profile) :
    respInvariant (handleNutritionQuestions p) := by
  intro h
  simp [handleNutritionQuestions] at h

theorem respInvariant_handleTime (p : Option Profile) (c : Ctx) :
    respInvariant (handleTimeQuestions p c) := by
  unfold respInvariant
  simp only [handleTimeQuestions]
  rcases p with _ | ⟨name, goal, fgoal, diet, tps, tb⟩
  case none =>
    split_ifs <;> exact fun h => by simp at h
  case some =>
    rcases tps with _ | (_ | ⟨tp, rest⟩) <;>
      split_ifs <;> exact fun h => by simp at h

theorem respInvariant_handleGeneral (m : String) :
    respInvariant (handleGeneralQuestions m) := by
  unfold respInvariant
  simp only [handleGeneralQuestions]
  split_ifs <;> exact fun h => by simp at h

/-- Every response of the rule-based cascade satisfies the invariant: each
branch that returns `type = "suggestions"` attaches one of the generator
outputs, and every generator returns at least one suggestion. -/
theorem respInvariant_understandIntent (m : String) (p : Option Profile) (c : Ctx) :
    respInvariant (understandIntent m p c) := by
  unfold understandIntent
  split_ifs <;>
    first
      | exact respInvariant_handleWorkout m p
      | exact respInvariant_handleMeal m p
      | exact respInvariant_handleClass m
      | exact respInvariant_handlePlan p
      | exact respInvariant_handleNutrition p
      | exact respInvariant_handleTime p c
      | exact respInvariant_handleGeneral m
      | exact fun h => by simp at h
      | exact fun h => by simp [defaultHelpResponse] at h

/-- The normalized generative payload never violates the invariant: it never
returns `type = "suggestions"` at all (an empty normalized list coerces the
type to `"message"`, a non-empty one is collapsed into a message). -/
theorem respInvariant_normalize (raw : RawPayload) (up : Option Profile) (nw : Nat) :
    respInvariant (normalizeLlmPayload raw up nw) := by
  unfold respInvariant
  simp only [normalizeLlmPayload]
  split
  next hs =>
    split
    next => exact fun h => by simp at h
    next hc =>
      intro h
      simp only [] at h
      exact absurd (by simp [h, hs]) hc
  next hs => exact fun h => by simp at h

/-- `_build_class_response` on a payload with at least one item returns a
non-empty suggestion list. -/
theorem respInvariant_buildClassResponse (pl : ClassesPayload) (h : pl.items ≠ []) :
    respInvariant (buildClassResponse pl) := by
  unfold respInvariant buildClassResponse
  intro _
  have hne : (pl.items.take 4).mapIdx classSuggestionOf ≠ [] := by
    intro hnil
    rw [List.mapIdx_eq_nil_iff, List.take_eq_nil_iff] at hnil
    rcases hnil with h4 | hitems
    · cases h4
    · exact h hitems
  refine ⟨_, ?_, hne⟩
  simp only [if_neg hne]

/-- C7.  Every `ChatResponse` produced by a path of the core — the rule-based
cascade, the normalized generative path, and the class-listing builder on the
payloads the fetch step hands it (always at least one item, since an empty
fetch returns `None` instead of a payload) — satisfies: `type =
"suggestions"` implies a non-empty suggestion list; paths that would produce
zero suggestions return `type = "message"` instead (`respInvariant_normalize`
shows the coercion). -/
theorem suggestions_type_nonempty (m : String) (p : Option Profile) (c : Ctx)
    (raw : RawPayload) (up : Option Profile) (nw : Nat) (pl : ClassesPayload)
    (hpl : pl.items ≠ []) :
    respInvariant (understandIntent m p c) ∧
    respInvariant (normalizeLlmPayload raw up nw) ∧
    respInvariant (buildClassResponse pl) :=
  ⟨respInvariant_understandIntent m p c, respInvariant_normalize raw up nw,
   respInvariant_buildClassResponse pl hpl⟩

/-- C7, witness: a one-item class payload yields a non-empty suggestion
list. -/
theorem suggestions_type_nonempty_witness :
    ∃ l, (buildClassResponse { timeframe := "today", items := [{}] }).suggestions
      = some l ∧ l ≠ [] :=
  (suggestions_type_nonempty "hi" none ⟨[]⟩ {} none 0
      { timeframe := "today", items := [{}] } (by decide)).2.2 (by decide)

/-! ### C8: normalization of the generative payload -/

theorem enrich_kind (s : NSuggestion) (up : Option Profile) (nw : Nat) :
    (enrichSuggestion s up nw).kind = s.kind := rfl

theorem enrich_id (s : NSuggestion) (up : Option Profile) (nw : Nat) :
    (enrichSuggestion s up nw).id = s.id := rfl

theorem enrich_title (s : NSuggestion) (up : Option Profile) (nw : Nat) :
    (enrichSuggestion s up nw).title = s.title := rfl

theorem enrich_cta (s : NSuggestion) (up : Option Profile) (nw : Nat) :
    (enrichSuggestion s up nw).cta = s.cta := rfl

/-- Enrichment leaves a schedulable suggestion with both times present. -/
theorem enrich_schedulable (s : NSuggestion) (up : Option Profile) (nw : Nat)
    (h : s.kind = "workout" ∨ s.kind = "class") :
    ∃ st en, (enrichSuggestion s up nw).payload.startMin = some st ∧
      (enrichSuggestion s up nw).payload.endMin = some en := by
  rcases h with h | h <;>
    rcases hst : s.payload.startMin with _ | st <;>
      rcases hen : s.payload.endMin with _ | en <;>
        simp [enrichSuggestion, h, hst, hen]

/-- Enrichment leaves a meal suggestion with both macros present. -/
theorem enrich_meal (s : NSuggestion) (up : Option Profile) (nw : Nat)
    (h : s.kind = "meal") :
    ∃ kc pr, (enrichSuggestion s up nw).payload.kcal = some kc ∧
      (enrichSuggestion s up nw).payload.protein = some pr := by
  simp [enrichSuggestion, h]

/-- C8.  Normalization of a raw generative payload: every normalized
suggestion's kind lies in {workout, meal, class}; a kind outside that set is
coerced to `"workout"`; missing `id`/`title`/`cta` are backfilled with
`"s<idx>"`/`"Try This"`/`"Learn More"`; the (possibly missing) payload is
backfilled per kind (times for schedulable kinds, macros for meals); and
whenever normalization produces at least one suggestion, the whole response
collapses to `type = "message"` with no structured suggestion list. -/
theorem normalize_payload_spec (raw : RawPayload) (up : Option Profile) (nw idx : Nat)
    (rs : RawSuggestion) :
    (normalizeSuggestion up nw idx rs).kind ∈ (["workout", "meal", "class"] : List String) ∧
    (∀ k, rs.kind = some k → k ≠ "workout" → k ≠ "meal" → k ≠ "class" →
      (normalizeSuggestion up nw idx rs).kind = "workout") ∧
    (rs.id = none → (normalizeSuggestion up nw idx rs).id = "s" ++ toString idx) ∧
    (rs.title = none → (normalizeSuggestion up nw idx rs).title = "Try This") ∧
    (rs.cta = none → (normalizeSuggestion up nw idx rs).cta = "Learn More") ∧
    ((normalizeSuggestion up nw idx rs).kind = "workout" ∨
        (normalizeSuggestion up nw idx rs).kind = "class" →
      ∃ st en, (normalizeSuggestion up nw idx rs).payload.startMin = some st ∧
        (normalizeSuggestion up nw idx rs).payload.endMin = some en) ∧
    ((normalizeSuggestion up nw idx rs).kind = "meal" →
      ∃ kc pr, (normalizeSuggestion up nw idx rs).payload.kcal = some kc ∧
        (normalizeSuggestion up nw idx rs).payload.protein = some pr) ∧
    (normSuggestions raw up nw ≠ [] →
      (normalizeLlmPayload raw up nw).type = "message" ∧
      (normalizeLlmPayload raw up nw).suggestions = none) := by
  have hkind : (normalizeSuggestion up nw idx rs).kind =
      (if rs.kind.getD "workout" = "workout" || rs.kind.getD "workout" = "meal" ||
          rs.kind.getD "workout" = "class" then rs.kind.getD "workout" else "workout") := rfl
  refine ⟨?_, ?_, ?_, ?_, ?_, ?_, ?_, ?_⟩
  · rw [hkind]
    split_ifs with hc
    · simp only [Bool.or_eq_true, decide_eq_true_eq] at hc
      rcases hc with (h | h) | h <;> simp [h]
    · simp
  · intro k hk h1 h2 h3
    rw [hkind, hk]
    simp [h1, h2, h3]
  · intro h
    show pyOrS rs.id ("s" ++ toString idx) = _
    rw [h]
    rfl
  · intro h
    show pyOrS rs.title "Try This" = _
    rw [h]
    rfl
  · intro h
    show pyOrS rs.cta "Learn More" = _
    rw [h]
    rfl
  · intro h
    unfold normalizeSuggestion at h ⊢
    rw [enrich_kind] at h
    exact enrich_schedulable _ up nw h
  · intro h
    unfold normalizeSuggestion at h ⊢
    rw [enrich_kind] at h
    exact enrich_meal _ up nw h
  · intro hne
    constructor
    · simp only [normalizeLlmPayload]
      rw [if_neg hne]
    · simp only [normalizeLlmPayload]
      rw [if_neg hne]

/-- C8, witness: the raw suggestion `{kind: "snack"}` is coerced to a workout
with backfilled fields, and a payload containing it collapses to a plain
message. -/
theorem normalize_payload_spec_witness :
    (normalizeSuggestion none 600 1 { kind := some "snack" }).kind = "workout" ∧
    ((normalizeLlmPayload { suggestions := some [some { kind := some "snack" }] } none
        600).type = "message" ∧
      (normalizeLlmPayload { suggestions := some [some { kind := some "snack" }] } none
        600).suggestions = none) :=
  ⟨(normalize_payload_spec { suggestions := some [some { kind := some "snack" }] } none 600 1
      { kind := some "snack" }).2.1 "snack" rfl (by decide) (by decide) (by decide),
   (normalize_payload_spec { suggestions := some [some { kind := some "snack" }] } none 600 1
      { kind := some "snack" }).2.2.2.2.2.2.2 (by decide)⟩

/-- C9.  With the generative collaborator unconfigured, the message
`"what should I eat"` with `dietPrefs = ["Vegetarian"]` takes the rule-based
meal branch: the response has `type = "suggestions"` and its first suggestion
is the vegetarian meal `"Quinoa Buddha Bowl"` of kind `"meal"`. -/
theorem veg_meal_scenario :
    (generateRuleBased "what should I eat"
        (some { dietPrefs := some ["Vegetarian"] }) []).type = "suggestions" ∧
    ((generateRuleBased "what should I eat" (some { dietPrefs := some ["Vegetarian"] })
        []).suggestions.getD []).head?.map (fun s => (s.kind, s.title))
      = some ("meal", "Quinoa Buddha Bowl") := by
  decide

/-- C10.  The greeting branch matches by raw substring containment: any
message containing `"hi"`, `"hello"` or `"hey"` anywhere (e.g. the `"hi"`
inside `"chicken"`) makes the classifier return the greeting message
response, whatever other workout/meal/class/plan keywords are present. -/
theorem greeting_substring_priority (m : String) (p : Option Profile) (c : Ctx)
    (h : strContains m "hi" = true ∨ strContains m "hello" = true ∨
      strContains m "hey" = true) :
    (understandIntent m p c).type = "message" ∧
    (understandIntent m p c).message
      = some (getPersonalizedGreeting p ++ "How can I help you today?") := by
  have hg : greetingCond m = true := by
    rcases h with h | h | h
    · exact containsAny_of_mem (by simp) h
    · exact containsAny_of_mem (by simp) h
    · exact containsAny_of_mem (by simp) h
  unfold understandIntent
  simp [hg]

/-- C10, witness: `"chicken workout meal class plan"` contains `"hi"` (inside
`"chicken"`) and still greets. -/
theorem greeting_substring_priority_witness :
    strContains "chicken workout meal class plan" "hi" = true ∧
    (understandIntent "chicken workout meal class plan" none ⟨[]⟩).type = "message" :=
  ⟨by decide,
   (greeting_substring_priority "chicken workout meal class plan" none ⟨[]⟩
     (Or.inl (by decide))).1⟩
